import Mathlib

/-!
Verification development for the house-stat scraper (src/house_stat.py).

The Python source is shallowly embedded below.  HTML tables are modelled as
lists of rows, each row a list of raw cell strings (BeautifulSoup
`get_text` of a table is modelled as the concatenation of its cell texts).
Python `str.strip` / `str.replace` / `in` (substring) / `str.isdigit` /
`int` / `float` are modelled by the executable functions `pyStrip`,
`pyRemove`, `strContains`, `pyDigitsNat?` and `pyFloat?`; floating point
values are modelled exactly as rationals, since every value handled by the
program is a decimal numeral (the model of `float(...)` covers plain
signed decimal numerals, which is the fragment the page data exercises;
on anything else it fails just as `float` raises `ValueError`).
The two fixed regular expressions of the source are modelled by direct
matching functions with the same leftmost-match, greedy-with-backtracking
semantics (`monthSearchC`, `dateSearchC`).
-/

/-- Model of checking that `pat` is an initial segment of a char list. -/
def csub : List Char → List Char → Bool
  | [], _ => true
  | _ :: _, [] => false
  | p :: ps, h :: hs => decide (p = h) && csub ps hs

/-- Model of substring search: does `pat` occur inside the list? -/
def cfind (pat : List Char) : List Char → Bool
  | [] => pat.isEmpty
  | h :: t => csub pat (h :: t) || cfind pat t

/-- Model of Python `pat in s` (substring containment). -/
def strContains (s pat : String) : Bool :=
  cfind pat.data s.data

/-- Model of Python `str.strip()` (leading/trailing whitespace removed). -/
def pyStrip (s : String) : String :=
  ⟨((s.data.dropWhile Char.isWhitespace).reverse.dropWhile Char.isWhitespace).reverse⟩

/-- Model of Python `str.replace(pat, '')` on char lists: remove every
non-overlapping occurrence of `pat`, scanning left to right.  The `Nat`
argument is fuel, instantiated with the list length (each step consumes
at least one character, so the fuel never runs out). -/
def pyRemoveAux (pat : List Char) : Nat → List Char → List Char
  | 0, l => l
  | _ + 1, [] => []
  | fuel + 1, h :: t =>
    if 0 < pat.length ∧ csub pat (h :: t) = true then
      pyRemoveAux pat fuel (List.drop (pat.length - 1) t)
    else
      h :: pyRemoveAux pat fuel t

/-- Model of Python `s.replace(pat, '')`. -/
def pyRemove (s pat : String) : String :=
  ⟨pyRemoveAux pat.data s.data.length s.data⟩

/-- Decimal value of a digit list. -/
def natOf (l : List Char) : Nat :=
  l.foldl (fun n c => n * 10 + (c.toNat - 48)) 0

/-- Model of Python `int(s) if s.isdigit() else`-failure: `some` exactly on a
nonempty all-ASCII-digit string. -/
def pyDigitsNat? (s : String) : Option Nat :=
  if s.data.isEmpty then none
  else if s.data.all Char.isDigit then some (natOf s.data) else none

/-- Model of Python `float(s)` on the plain signed decimal fragment:
optional sign, digits with at most one point, at least one digit; any
other input fails (as `float` raises `ValueError` on the page's residual
non-numeric content). -/
def pyFloat? (s : String) : Option ℚ :=
  let body : List Char :=
    match s.data with
    | '-' :: t => t
    | '+' :: t => t
    | l => l
  let neg : Bool :=
    match s.data with
    | '-' :: _ => true
    | _ => false
  let d1 := body.takeWhile Char.isDigit
  let r1 := body.dropWhile Char.isDigit
  let res : Option ℚ :=
    match r1 with
    | [] => if d1.isEmpty then none else some (mkRat (natOf d1) 1)
    | '.' :: r2 =>
      let d2 := r2.takeWhile Char.isDigit
      let r3 := r2.dropWhile Char.isDigit
      if r3.isEmpty ∧ ¬(d1.isEmpty ∧ d2.isEmpty) then
        some (mkRat (natOf (d1 ++ d2)) (10 ^ d2.length))
      else none
    | _ => none
  res.map (fun q => if neg then -q else q)

/-- Model of Python `str.zfill(2)`. -/
def zfill2 (s : String) : String :=
  if s.data.length < 2 then ⟨List.replicate (2 - s.data.length) '0' ++ s.data⟩ else s

/-- The literal tail of the month pattern `(\d{4})年(\d{1,2})月存量房网上签约`. -/
def monthLit : List Char := "月存量房网上签约".data

/-- The literal tail of the daily pattern `(\d{4})/(\d{1,2})/(\d{1,2})存量房网上签约`. -/
def dayLit : List Char := "存量房网上签约".data

/-- Match the month pattern at the start of a char list, returning the
`(year, month)` groups (greedy two-digit month tried first, as the regex
does). -/
def monthAt : List Char → Option (String × String)
  | a :: b :: c :: d :: e :: rest =>
    if a.isDigit && b.isDigit && c.isDigit && d.isDigit && decide (e = '年') then
      match rest with
      | x :: y :: r2 =>
        if x.isDigit && y.isDigit && csub monthLit r2 then some (⟨[a, b, c, d]⟩, ⟨[x, y]⟩)
        else if x.isDigit && csub monthLit (y :: r2) then some (⟨[a, b, c, d]⟩, ⟨[x]⟩)
        else none
      | _ => none
    else none
  | _ => none

/-- Model of `month_pattern.search`: leftmost occurrence of the month
pattern, with its two groups. -/
def monthSearchC : List Char → Option (String × String)
  | [] => none
  | h :: t =>
    match monthAt (h :: t) with
    | some r => some r
    | none => monthSearchC t

/-- One-or-two digit group followed by `/` (greedy), for the daily pattern. -/
def takeMonthSlash : List Char → Option (String × List Char)
  | x :: y :: z :: r =>
    if x.isDigit && y.isDigit && decide (z = '/') then some (⟨[x, y]⟩, r)
    else if x.isDigit && decide (y = '/') then some (⟨[x]⟩, z :: r)
    else none
  | [x, y] => if x.isDigit && decide (y = '/') then some (⟨[x]⟩, []) else none
  | _ => none

/-- One-or-two digit group followed by the daily literal (greedy). -/
def takeDayLit : List Char → Option String
  | x :: y :: r =>
    if x.isDigit && y.isDigit && csub dayLit r then some ⟨[x, y]⟩
    else if x.isDigit && csub dayLit (y :: r) then some ⟨[x]⟩
    else none
  | _ => none

/-- Match the daily pattern at the start of a char list; on success the
date is already formatted as in the source:
`f"{year}-{month.zfill(2)}-{day.zfill(2)}"`. -/
def dayAt : List Char → Option String
  | a :: b :: c :: d :: e :: rest =>
    if a.isDigit && b.isDigit && c.isDigit && d.isDigit && decide (e = '/') then
      match takeMonthSlash rest with
      | some (mo, r1) =>
        match takeDayLit r1 with
        | some dy => some ((⟨[a, b, c, d]⟩ : String) ++ "-" ++ zfill2 mo ++ "-" ++ zfill2 dy)
        | none => none
      | none => none
    else none
  | _ => none

/-- Model of `date_pattern.search` / `daily_pattern.search`: leftmost
occurrence of the daily pattern. -/
def dateSearchC : List Char → Option String
  | [] => none
  | h :: t =>
    match dayAt (h :: t) with
    | some r => some r
    | none => dateSearchC t

/-- A parsed HTML table: rows of raw cell texts. -/
abbrev Table := List (List String)

/-- Model of BeautifulSoup `table.get_text()`: concatenation of the cell
texts of the table, in document order. -/
def tableText (t : Table) : List Char :=
  (t.flatten.map String.data).flatten

/-- A Python number that is displayed either as an `int` or as a `float`
(the source stores `int(v) if v == int(v) else v`). -/
inductive PyNum where
  | ofInt (i : ℤ)
  | ofFloat (q : ℚ)
deriving DecidableEq

/-- `int(count_val) if count_val == int(count_val) else count_val`. -/
def pyNumOf (q : ℚ) : PyNum :=
  if q.den = 1 then .ofInt q.num else .ofFloat q

/-- One record of `parse_agency_data` (fields 年月 / 序号 / 经纪机构 /
签约套数 / 退房套数). -/
structure AgencyRec where
  yearMonth : String
  seqNo : Nat
  agencyName : String
  signCount : Nat
  refundCount : Nat
deriving DecidableEq

/-- The per-row acceptance of `parse_agency_data` (house_stat.py lines
141-159): a row needs at least 4 cells and a stripped first cell that is a
nonempty digit string; counts fall back to 0 on non-digit text. -/
def acceptRow (ym : String) : List String → Option AgencyRec
  | c0 :: c1 :: c2 :: c3 :: _ =>
    (pyDigitsNat? (pyStrip c0)).map (fun n =>
      ⟨ym, n, pyStrip c1, (pyDigitsNat? (pyStrip c2)).getD 0, (pyDigitsNat? (pyStrip c3)).getD 0⟩)
  | _ => none

/-- `parse_agency_data` on an already-located table: skip the header row,
then accept rows by `acceptRow` (house_stat.py lines 137-166). -/
def parse_agency_data (ym : String) (rows : List (List String)) : List AgencyRec :=
  (rows.drop 1).filterMap (acceptRow ym)

/-- One record of `parse_district_data` (年月 / 区县 / 签约套数 / 成交面积). -/
structure DistrictRec where
  yearMonth : String
  district : String
  signCount : PyNum
  dealArea : ℚ
deriving DecidableEq

/-- Data cells of a role-row: drop the first (label) cell, strip each text
(`get_text(strip=True)` on `row[1:]`). -/
def rowCells (r : List String) : List String :=
  (r.drop 1).map pyStrip

/-- The district value normalization (house_stat.py lines 245-249):
`s.replace(',', '').strip()`, empty becomes 0, anything else must be a
decimal numeral (`float` raising means the row is skipped, i.e. `none`). -/
def districtNum (c : String) : Option ℚ :=
  let s := pyStrip (pyRemove c ",")
  if s = "" then some 0 else pyFloat? s

/-- The transpose loop of `parse_district_data` (lines 242-259): walk the
concatenated district/count/area columns in step; a column whose count or
area fails to normalize is skipped, and columns beyond the count or area
row length are skipped (hence dropped once either list is exhausted). -/
def districtRows (ym : String) : List String → List String → List String → List DistrictRec
  | d :: ds, c :: cs, a :: as' =>
    match districtNum c, districtNum a with
    | some cv, some av =>
      { yearMonth := ym, district := d, signCount := pyNumOf cv, dealArea := av } ::
        districtRows ym ds cs as'
    | _, _ => districtRows ym ds cs as'
  | _, _, _ => []

/-- `parse_district_data` on the inner table's rows (lines 200-263):
require at least 6 rows, read rows 1-3 and 4-6 as the two blocks, drop
each role-row's label cell, concatenate block-wise and transpose. -/
def parse_district_data (ym : String) (rows : List (List String)) : List DistrictRec :=
  match rows with
  | r1 :: r2 :: r3 :: r4 :: r5 :: r6 :: _ =>
    districtRows ym (rowCells r1 ++ rowCells r4) (rowCells r2 ++ rowCells r5)
      (rowCells r3 ++ rowCells r6)
  | _ => []

/-- The daily/monthly area normalization (house_stat.py lines 399-400,
405-406, 499-500, 504-505): `value.replace('m²', '').replace(' ', '').strip()`,
empty becomes 0, residual non-numeric content raises (`none`). -/
def pyAreaVal (v : String) : Option ℚ :=
  let a := pyStrip (pyRemove (pyRemove v "m²") " ")
  if a = "" then some 0 else pyFloat? a

/-- The field dictionary built by `parse_daily_data`: keys are present
(`some`) exactly when the corresponding label was matched. -/
structure DailyData where
  signCount : Option Nat
  signArea : Option ℚ
  resSignCount : Option Nat
  resSignArea : Option ℚ
deriving DecidableEq

/-- Processing one (label, value) pair in `parse_daily_data` (lines
394-406).  `none` models an uncaught `ValueError` from `float`, which
aborts the whole strategy. -/
def stepDaily (d : DailyData) (label value : String) : Option DailyData :=
  if strContains label "网上签约套数" && !strContains label "住宅" then
    some { d with signCount := some ((pyDigitsNat? value).getD 0) }
  else if strContains label "网上签约面积" && !strContains label "住宅" then
    (pyAreaVal value).map (fun q => { d with signArea := some q })
  else if strContains label "住宅签约套数" then
    some { d with resSignCount := some ((pyDigitsNat? value).getD 0) }
  else if strContains label "住宅签约面积" then
    (pyAreaVal value).map (fun q => { d with resSignArea := some q })
  else some d

/-- One row of the daily scan: every adjacent (label, value) cell pair is
processed, each cell stripped (lines 388-392). -/
def dailyRowStep (d : DailyData) (row : List String) : Option DailyData :=
  (row.zip (row.drop 1)).foldlM (fun st p => stepDaily st (pyStrip p.1) (pyStrip p.2)) d

/-- The full daily extraction over a table's rows (lines 385-406). -/
def extractDaily (t : Table) : Option DailyData :=
  t.foldlM dailyRowStep ⟨none, none, none, none⟩

/-- `if data:` — was at least one recognized field matched? -/
def dailyMatched (d : DailyData) : Bool :=
  d.signCount.isSome || d.signArea.isSome || d.resSignCount.isSome || d.resSignArea.isSome

/-- Are all four recognized fields matched (needed for the column
re-selection `df[['日期', ...]]` to succeed)? -/
def dailyAllMatched (d : DailyData) : Bool :=
  d.signCount.isSome && d.signArea.isSome && d.resSignCount.isSome && d.resSignArea.isSome

/-- One record of `parse_daily_data` (日期 / 签约套数 / 签约面积 /
住宅签约套数 / 住宅签约面积). -/
structure DailyRec where
  date : String
  signCount : Nat
  signArea : ℚ
  resSignCount : Nat
  resSignArea : ℚ
deriving DecidableEq

/-- The tables whose text matches the daily date pattern, with their
formatted dates, in document order (lines 365-374). -/
def dailyTables (tables : List Table) : List (String × Table) :=
  tables.filterMap (fun t => (dateSearchC (tableText t)).map (fun d => (d, t)))

/-- `parse_daily_data` (lines 353-421): take the FIRST matching table,
extract the label/value pairs; an uncaught error (`none` extraction, or
the `df[[...]]` column re-selection failing because a recognized column
is absent) is caught by the function-level handler which returns an empty
record set. -/
def parse_daily_data (tables : List Table) : List DailyRec :=
  match dailyTables tables with
  | [] => []
  | (date, t) :: _ =>
    match extractDaily t with
    | none => []
    | some d =>
      if dailyMatched d then
        match d.signCount, d.signArea, d.resSignCount, d.resSignArea with
        | some a, some b, some c, some e =>
          [{ date := date, signCount := a, signArea := b, resSignCount := c, resSignArea := e }]
        | _, _, _, _ => []
      else []

/-- The field dictionary of `parse_month_summary`, pre-initialized to
zeros (lines 479-485). -/
structure MonthData where
  signCount : Nat
  signArea : ℚ
  resSignCount : Nat
  resSignArea : ℚ
deriving DecidableEq

/-- Processing one (label, value) pair in `parse_month_summary` (lines
494-505); `none` models an uncaught `ValueError` from `float`. -/
def stepMonth (m : MonthData) (label value : String) : Option MonthData :=
  if strContains label "网上签约套数" && !strContains label "住宅" then
    some { m with signCount := (pyDigitsNat? value).getD 0 }
  else if strContains label "网上签约面积" && !strContains label "住宅" then
    (pyAreaVal value).map (fun q => { m with signArea := q })
  else if strContains label "住宅签约套数" then
    some { m with resSignCount := (pyDigitsNat? value).getD 0 }
  else if strContains label "住宅签约面积" then
    (pyAreaVal value).map (fun q => { m with resSignArea := q })
  else some m

/-- One row of the month extraction: only the first two cells are used,
and only when the row has at least two cells (lines 489-492). -/
def monthRowStep (m : MonthData) (row : List String) : Option MonthData :=
  match row with
  | c0 :: c1 :: _ => stepMonth m (pyStrip c0) (pyStrip c1)
  | _ => some m

/-- The full month extraction over the chosen table's rows (lines 487-505). -/
def extractMonth (t : Table) : Option MonthData :=
  t.foldlM monthRowStep ⟨0, 0, 0, 0⟩

/-- Does a table survive the selector's filters: month pattern matches and
the daily pattern does not (line 449)? -/
def surv (t : Table) : Bool :=
  (monthSearchC (tableText t)).isSome && !(dateSearchC (tableText t)).isSome

/-- The provisional primary count of a candidate table (lines 455-467):
the first row with at least two cells whose first cell contains
`网上签约套数` without `住宅` yields `int(value)` (0 on non-digit text);
no such row yields 0. -/
def firstSignCount : Table → Nat
  | [] => 0
  | row :: rest =>
    match row with
    | c0 :: c1 :: _ =>
      if strContains (pyStrip c0) "网上签约套数" && !strContains (pyStrip c0) "住宅" then
        (pyDigitsNat? (pyStrip c1)).getD 0
      else firstSignCount rest
    | _ => firstSignCount rest

/-- The month string of a table, from the groups of the month match
(`f"{year}-{month.zfill(2)}"`, lines 450-452). -/
def monthOf (t : Table) : String :=
  match monthSearchC (tableText t) with
  | some (y, mo) => y ++ "-" ++ zfill2 mo
  | none => ""

/-- The candidate-selection loop of `parse_month_summary` (lines 439-473):
starting from `best_table = None`, `max_sign_count = 0`, a surviving table
replaces the current best exactly when its count is STRICTLY larger. -/
def bestLoop : List Table → Option (Table × String) → Nat → Option (Table × String)
  | [], best, _ => best
  | t :: ts, best, maxc =>
    if surv t = true then
      if maxc < firstSignCount t then bestLoop ts (some (t, monthOf t)) (firstSignCount t)
      else bestLoop ts best maxc
    else bestLoop ts best maxc

/-- The selector's result on a document's tables. -/
def monthSelect (tables : List Table) : Option (Table × String) :=
  bestLoop tables none 0

/-- One record of `parse_month_summary` (月份 / 网上签约套数 /
网上签约面积(m2) / 住宅签约套数 / 住宅签约面积(m2)). -/
structure MonthRec where
  month : String
  signCount : Nat
  signArea : ℚ
  resSignCount : Nat
  resSignArea : ℚ
deriving DecidableEq

/-- `parse_month_summary` (lines 424-523): select the best candidate
table, extract its fields, and emit the single record only when a
positive generic or residential count was extracted (line 508). -/
def parse_month_summary (tables : List Table) : List MonthRec :=
  match monthSelect tables with
  | none => []
  | some (t, m) =>
    match extractMonth t with
    | none => []
    | some d =>
      if 0 < d.signCount ∨ 0 < d.resSignCount then
        [{ month := m, signCount := d.signCount, signArea := d.signArea,
           resSignCount := d.resSignCount, resSignArea := d.resSignArea }]
      else []

/-- A record set headed for one store: the column names and the data rows
(cell values as the delimited text they are persisted as). -/
structure DataFrame where
  cols : List String
  rows : List (List String)
deriving DecidableEq

/-- A persisted store: the header row written at creation, and the data
rows in their on-disk order. -/
structure CsvFile where
  header : List String
  rows : List (List String)
deriving DecidableEq

/-- The composite key of a row: the values under the key columns (pandas
`set_index(key_column).index`; `none` where a key column is absent). -/
def rowKey (cols keyCols : List String) (row : List String) : List (Option String) :=
  keyCols.map (fun k => (cols.findIdx? (fun c => decide (c = k))).bind (fun i => row.get? i))

/-- `save_to_csv` (house_stat.py lines 526-579) over a store state
(`none` = the file does not exist).  Empty input is a no-op returning
`(0, 0)`.  On an existing store, `duplicates` counts the pairs of the
pandas inner merge on the key columns, and only rows whose key is absent
from the existing key set are appended; a key column missing from either
frame makes pandas raise, which the handler turns into `(0, 0)` with the
store untouched.  Result: `((new_count, duplicate_count), new store state)`. -/
def save_to_csv (df : DataFrame) (keyCols : List String) (store : Option CsvFile) :
    (Nat × Nat) × Option CsvFile :=
  if df.rows = [] then ((0, 0), store)
  else
    match store with
    | some s =>
      if (∀ k ∈ keyCols, k ∈ df.cols) ∧ (∀ k ∈ keyCols, k ∈ s.header) then
        let existingKeys := s.rows.map (rowKey s.header keyCols)
        let dup := (df.rows.map
          (fun r => (existingKeys.filter
            (fun k => decide (k = rowKey df.cols keyCols r))).length)).sum
        let newRows := df.rows.filter (fun r => decide (rowKey df.cols keyCols r ∉ existingKeys))
        ((newRows.length, dup), some ⟨s.header, s.rows ++ newRows⟩)
      else ((0, 0), some s)
    | none => ((df.rows.length, 0), some ⟨df.cols, df.rows⟩)

/-- Proof-side restatement of `bestLoop`: the eventual winner among the
remaining tables, given the current running maximum. -/
def pickFrom : List Table → Nat → Option (Table × String)
  | [], _ => none
  | t :: ts, maxc =>
    if surv t = true ∧ maxc < firstSignCount t then
      match pickFrom ts (firstSignCount t) with
      | some w => some w
      | none => some (t, monthOf t)
    else pickFrom ts maxc

/-- Daily fixture: first table in document order, date 2026/1/5, all four
recognized fields present. -/
def dayTblA : Table :=
  [["2026/1/5存量房网上签约"], ["网上签约套数", "10", "网上签约面积", "20.5"],
   ["住宅签约套数", "6", "住宅签约面积", "12.5"]]

/-- Daily fixture: second table in document order, with the LATER date
2026/1/9. -/
def dayTblB : Table :=
  [["2026/1/9存量房网上签约"], ["网上签约套数", "11", "网上签约面积", "21.5"],
   ["住宅签约套数", "7", "住宅签约面积", "13.5"]]

lemma filter_decide_eq_singleton {α : Type} [DecidableEq α] :
    ∀ (l : List α), l.Nodup → ∀ x ∈ l, l.filter (fun y => decide (y = x)) = [x] := by
  intro l
  induction l with
  | nil => intro _ x hx; cases hx
  | cons a t ih =>
    intro hnd x hx
    rw [List.nodup_cons] at hnd
    rw [List.filter_cons]
    by_cases hax : a = x
    · subst hax
      simp only [decide_true_eq_true, decide_eq_true_eq, if_pos rfl]
      have ht : t.filter (fun y => decide (y = a)) = [] := by
        apply List.filter_eq_nil_iff.mpr
        intro y hy
        simp only [decide_eq_true_eq]
        intro hya
        exact hnd.1 (hya ▸ hy)
      simp [ht]
    · have hxt : x ∈ t := by
        rcases List.mem_cons.mp hx with h | h
        · exact absurd h.symm hax
        · exact h
      simp only [decide_eq_true_eq, if_neg hax]
      exact ih hnd.2 x hxt

lemma sum_map_eq_length {β : Type} :
    ∀ (l : List β) (f : β → Nat), (∀ b ∈ l, f b = 1) → (l.map f).sum = l.length := by
  intro l
  induction l with
  | nil => intro f _; rfl
  | cons b t ih =>
    intro f h
    simp only [List.map_cons, List.sum_cons, List.length_cons,
      h b (List.mem_cons_self b t), ih f (fun c hc => h c (List.mem_cons_of_mem b hc))]
    omega

/-- C1: for a record set with pairwise-distinct composite keys (key
columns present), running `save_to_csv` against a nonexistent store
creates the store with all rows and returns `(len, 0)`, and running it
again against the created store returns `(0, len)` and leaves the store
unchanged. -/
theorem save_to_csv_merge_idempotent (df : DataFrame) (keyCols : List String)
    (hne : df.rows ≠ [])
    (hsub : ∀ k ∈ keyCols, k ∈ df.cols)
    (hnd : (df.rows.map (rowKey df.cols keyCols)).Nodup) :
    save_to_csv df keyCols none = ((df.rows.length, 0), some ⟨df.cols, df.rows⟩) ∧
    save_to_csv df keyCols (some ⟨df.cols, df.rows⟩) =
      ((0, df.rows.length), some ⟨df.cols, df.rows⟩) := by
  constructor
  · unfold save_to_csv
    rw [if_neg hne]
  · unfold save_to_csv
    rw [if_neg hne]
    dsimp only
    have hguard : (∀ k ∈ keyCols, k ∈ df.cols) ∧
        (∀ k ∈ keyCols, k ∈ (⟨df.cols, df.rows⟩ : CsvFile).header) := ⟨hsub, hsub⟩
    rw [if_pos hguard]
    have hA : df.rows.filter
        (fun r => decide (rowKey df.cols keyCols r ∉ df.rows.map (rowKey df.cols keyCols))) = [] := by
      apply List.filter_eq_nil_iff.mpr
      intro r hr
      simp only [decide_eq_true_eq, not_not]
      exact List.mem_map_of_mem _ hr
    have hB : (df.rows.map
        (fun r => ((df.rows.map (rowKey df.cols keyCols)).filter
          (fun k => decide (k = rowKey df.cols keyCols r))).length)).sum = df.rows.length := by
      apply sum_map_eq_length
      intro r hr
      rw [filter_decide_eq_singleton _ hnd _ (List.mem_map_of_mem _ hr)]
      rfl
    simp only [hA, hB, List.length_nil, List.append_nil]

/-- Witness for C1 at a concrete two-row record set with distinct
composite keys. -/
theorem save_to_csv_merge_idempotent_witness :
    save_to_csv ⟨["年月", "经纪机构", "签约套数"], [["2025-12", "A", "3"], ["2025-12", "B", "4"]]⟩
        ["年月", "经纪机构"] none =
      ((2, 0), some ⟨["年月", "经纪机构", "签约套数"],
        [["2025-12", "A", "3"], ["2025-12", "B", "4"]]⟩) ∧
    save_to_csv ⟨["年月", "经纪机构", "签约套数"], [["2025-12", "A", "3"], ["2025-12", "B", "4"]]⟩
        ["年月", "经纪机构"]
        (some ⟨["年月", "经纪机构", "签约套数"], [["2025-12", "A", "3"], ["2025-12", "B", "4"]]⟩) =
      ((0, 2), some ⟨["年月", "经纪机构", "签约套数"],
        [["2025-12", "A", "3"], ["2025-12", "B", "4"]]⟩) := by
  have h := save_to_csv_merge_idempotent
    ⟨["年月", "经纪机构", "签约套数"], [["2025-12", "A", "3"], ["2025-12", "B", "4"]]⟩
    ["年月", "经纪机构"] (by decide) (by decide) (by decide)
  exact ⟨h.1, h.2⟩

/-- C8: merging into an existing store never rewrites the header and
leaves the previously persisted rows unchanged and in order; every write
against an existing store only appends data rows. -/
theorem save_to_csv_header_and_rows_preserved (df : DataFrame) (keyCols : List String)
    (s : CsvFile) :
    ∃ added, (save_to_csv df keyCols (some s)).2 = some ⟨s.header, s.rows ++ added⟩ := by
  unfold save_to_csv
  by_cases h : df.rows = []
  · rw [if_pos h]
    exact ⟨[], by simp⟩
  · rw [if_neg h]
    dsimp only
    by_cases hk : (∀ k ∈ keyCols, k ∈ df.cols) ∧ (∀ k ∈ keyCols, k ∈ s.header)
    · rw [if_pos hk]
      exact ⟨_, rfl⟩
    · rw [if_neg hk]
      exact ⟨[], by simp⟩

lemma parse_agency_mem {ym : String} {rows : List (List String)} {r : AgencyRec}
    (hr : r ∈ parse_agency_data ym rows) :
    r.yearMonth = ym ∧ ∃ row ∈ rows.drop 1, ∃ c0 c1 c2 c3 t,
      row = c0 :: c1 :: c2 :: c3 :: t ∧ pyDigitsNat? (pyStrip c0) = some r.seqNo ∧
      r.agencyName = pyStrip c1 := by
  obtain ⟨row, hrow, heq⟩ := List.mem_filterMap.mp hr
  match row, heq with
  | [], heq => simp [acceptRow] at heq
  | [c0], heq => simp [acceptRow] at heq
  | [c0, c1], heq => simp [acceptRow] at heq
  | [c0, c1, c2], heq => simp [acceptRow] at heq
  | c0 :: c1 :: c2 :: c3 :: t, heq =>
    simp only [acceptRow] at heq
    obtain ⟨n, hn, hr2⟩ := Option.map_eq_some'.mp heq
    subst hr2
    exact ⟨rfl, c0 :: c1 :: c2 :: c3 :: t, hrow, c0, c1, c2, c3, t, rfl, hn, rfl⟩

/-- Counterexample to C4: a row whose first cell is the digit string "0"
is accepted by the Flat-Row strategy, so an accepted record's
sequence-number field is not always a positive integer. -/
theorem agency_accepts_zero_seq :
    ∃ r ∈ parse_agency_data "2025-12" [["序号", "机构", "签约", "退房"], ["0", "X", "1", "2"]],
      r.seqNo = 0 := by decide

/-- C4 (amended): a table row is accepted by the Flat-Row strategy iff it
has at least 4 cells and its first cell's stripped text is a nonempty
decimal-digit string (a NONNEGATIVE integer — the digit string "0" is
accepted, so positivity does not hold); the record's sequence-number
field is the parsed value of that digit string. -/
theorem agency_row_acceptance (ym : String) (rows : List (List String)) :
    (∀ r ∈ parse_agency_data ym rows, ∃ row ∈ rows.drop 1, ∃ c0 c1 c2 c3 t,
      row = c0 :: c1 :: c2 :: c3 :: t ∧ pyDigitsNat? (pyStrip c0) = some r.seqNo ∧
      r.agencyName = pyStrip c1) ∧
    (∀ row ∈ rows.drop 1, ∀ c0 c1 c2 c3 t, row = c0 :: c1 :: c2 :: c3 :: t →
      ∀ n, pyDigitsNat? (pyStrip c0) = some n →
      ∃ r ∈ parse_agency_data ym rows, r.seqNo = n ∧ r.agencyName = pyStrip c1) := by
  constructor
  · intro r hr
    exact (parse_agency_mem hr).2
  · intro row hrow c0 c1 c2 c3 t hshape n hn
    refine ⟨⟨ym, n, pyStrip c1, (pyDigitsNat? (pyStrip c2)).getD 0,
      (pyDigitsNat? (pyStrip c3)).getD 0⟩, ?_, rfl, rfl⟩
    apply List.mem_filterMap.mpr
    refine ⟨row, hrow, ?_⟩
    rw [hshape]
    simp only [acceptRow]
    rw [hn]
    rfl

/-- Witness for C4 (amended) at a concrete accepted row. -/
theorem agency_row_acceptance_witness :
    ∃ r ∈ parse_agency_data "2025-12" [["序号", "机构", "签约", "退房"], ["1", "Y", "3", "4"]],
      r.seqNo = 1 ∧ r.agencyName = pyStrip "Y" := by
  have h := (agency_row_acceptance "2025-12"
    [["序号", "机构", "签约", "退房"], ["1", "Y", "3", "4"]]).2
    ["1", "Y", "3", "4"] (by decide) "1" "Y" "3" "4" [] rfl 1 (by decide)
  exact h

/-- Counterexample to C9: two in-page rows with the same agency name are
both admitted, so the natural key plus period is not unique in the
produced record set, and nothing is merged or rejected. -/
theorem agency_duplicate_keys_admitted :
    ∃ r1 ∈ parse_agency_data "2025-12"
      [["序号", "机构", "签约", "退房"], ["1", "X", "1", "2"], ["2", "X", "3", "4"]],
    ∃ r2 ∈ parse_agency_data "2025-12"
      [["序号", "机构", "签约", "退房"], ["1", "X", "1", "2"], ["2", "X", "3", "4"]],
      r1 ≠ r2 ∧ r1.yearMonth = r2.yearMonth ∧ r1.agencyName = r2.agencyName := by decide

/-- C9 (amended): the Flat-Row strategy performs no in-page
deduplication: all records of one run carry the same period, so the
(period, agency-name) composite key is duplicate-free exactly when the
accepted rows' agency names are — duplicate in-page rows are admitted
unchanged, not dropped, merged or logged. -/
theorem agency_period_key_uniqueness (ym : String) (rows : List (List String)) :
    (∀ r ∈ parse_agency_data ym rows, r.yearMonth = ym) ∧
    (((parse_agency_data ym rows).map (fun r => (r.yearMonth, r.agencyName))).Nodup ↔
      ((parse_agency_data ym rows).map (fun r => r.agencyName)).Nodup) := by
  have hym : ∀ r ∈ parse_agency_data ym rows, r.yearMonth = ym :=
    fun r hr => (parse_agency_mem hr).1
  refine ⟨hym, ?_⟩
  have hmap : (parse_agency_data ym rows).map (fun r => (r.yearMonth, r.agencyName)) =
      ((parse_agency_data ym rows).map (fun r => r.agencyName)).map (fun x => (ym, x)) := by
    rw [List.map_map]
    exact List.map_congr_left (fun r hr => by rw [hym r hr]; rfl)
  rw [hmap]
  constructor
  · exact fun h => h.of_map _
  · refine fun h => h.map ?_
    intro a b hab
    simpa using hab

/-- Witness for C9 (amended) at a concrete page with distinct names. -/
theorem agency_period_key_uniqueness_witness :
    ((parse_agency_data "2025-12"
      [["序号", "机构", "签约", "退房"], ["1", "X", "1", "2"], ["2", "Y", "3", "4"]]).map
        (fun r => (r.yearMonth, r.agencyName))).Nodup := by
  exact (agency_period_key_uniqueness "2025-12"
    [["序号", "机构", "签约", "退房"], ["1", "X", "1", "2"], ["2", "Y", "3", "4"]]).2.mpr
    (by decide)

lemma districtRows_map (ym : String) :
    ∀ ds cs as' : List String, ds.length ≤ cs.length → ds.length ≤ as'.length →
    (∀ c ∈ cs, (districtNum c).isSome) → (∀ a ∈ as', (districtNum a).isSome) →
    (districtRows ym ds cs as').map (fun r => r.district) = ds := by
  intro ds
  induction ds with
  | nil =>
    intro cs as' _ _ _ _
    simp [districtRows]
  | cons d ds ih =>
    intro cs as' hlc hla hc ha
    match cs, as', hlc, hla with
    | c :: cs', a :: as'', hlc, hla =>
      obtain ⟨cv, hcv⟩ := Option.isSome_iff_exists.mp (hc c (List.mem_cons_self c cs'))
      obtain ⟨av, hav⟩ := Option.isSome_iff_exists.mp (ha a (List.mem_cons_self a as''))
      simp only [districtRows, hcv, hav, List.map_cons]
      refine congrArg (d :: ·) ?_
      refine ih cs' as'' ?_ ?_ ?_ ?_
      · simpa using hlc
      · simpa using hla
      · exact fun x hx => hc x (List.mem_cons_of_mem c hx)
      · exact fun x hx => ha x (List.mem_cons_of_mem a hx)

/-- C3: with at least 6 rows, the Dual-Block Transpose strategy takes
rows 1-3 as block 1 and rows 4-6 as block 2, drops the label cell of each
role-row, concatenates same-role rows block1-then-block2, and (when every
count/area cell normalizes and the count/area rows are long enough) emits
exactly one record per entity column, in concatenation order. -/
theorem district_dual_block_transpose (ym : String) (r1 r2 r3 r4 r5 r6 : List String)
    (rest : List (List String))
    (hlc : (rowCells r1 ++ rowCells r4).length ≤ (rowCells r2 ++ rowCells r5).length)
    (hla : (rowCells r1 ++ rowCells r4).length ≤ (rowCells r3 ++ rowCells r6).length)
    (hc : ∀ c ∈ rowCells r2 ++ rowCells r5, (districtNum c).isSome)
    (ha : ∀ a ∈ rowCells r3 ++ rowCells r6, (districtNum a).isSome) :
    (parse_district_data ym (r1 :: r2 :: r3 :: r4 :: r5 :: r6 :: rest)).map
        (fun r => r.district) = rowCells r1 ++ rowCells r4 ∧
    (parse_district_data ym (r1 :: r2 :: r3 :: r4 :: r5 :: r6 :: rest)).length =
      (rowCells r1 ++ rowCells r4).length := by
  have h := districtRows_map ym (rowCells r1 ++ rowCells r4) (rowCells r2 ++ rowCells r5)
    (rowCells r3 ++ rowCells r6) hlc hla hc ha
  constructor
  · simpa only [parse_district_data] using h
  · have h2 := congrArg List.length h
    rw [List.length_map] at h2
    simpa only [parse_district_data] using h2

/-- Witness for C3: 9 districts per block with matching count/area rows
yield exactly 18 records in order `[A..I, J..R]`. -/
theorem district_dual_block_transpose_witness :
    (parse_district_data "2025-12"
      [["所在区", "A", "B", "C", "D", "E", "F", "G", "H", "I"],
       ["套数", "1", "2", "3", "4", "5", "6", "7", "8", "9"],
       ["面积", "1.5", "2.5", "3.5", "4.5", "5.5", "6.5", "7.5", "8.5", "9.5"],
       ["所在区", "J", "K", "L", "M", "N", "O", "P", "Q", "R"],
       ["套数", "11", "12", "13", "14", "15", "16", "17", "18", "19"],
       ["面积", "11.5", "12.5", "13.5", "14.5", "15.5", "16.5", "17.5", "18.5", "19.5"]]).map
        (fun r => r.district) =
      ["A", "B", "C", "D", "E", "F", "G", "H", "I",
       "J", "K", "L", "M", "N", "O", "P", "Q", "R"] := by
  have h := district_dual_block_transpose "2025-12"
    ["所在区", "A", "B", "C", "D", "E", "F", "G", "H", "I"]
    ["套数", "1", "2", "3", "4", "5", "6", "7", "8", "9"]
    ["面积", "1.5", "2.5", "3.5", "4.5", "5.5", "6.5", "7.5", "8.5", "9.5"]
    ["所在区", "J", "K", "L", "M", "N", "O", "P", "Q", "R"]
    ["套数", "11", "12", "13", "14", "15", "16", "17", "18", "19"]
    ["面积", "11.5", "12.5", "13.5", "14.5", "15.5", "16.5", "17.5", "18.5", "19.5"]
    [] (by decide) (by decide) (by decide) (by decide)
  exact h.1.trans (by decide)

/-- Counterexample to C6: the text `"1,234.50 m²"` is normalized to
`1234.5` on NEITHER value path — the district/area path strips commas but
not the unit suffix, the daily/month path strips the unit suffix and
spaces but not commas — so the claimed combined normalization does not
exist in the code. -/
theorem normalizer_comma_unit_mismatch :
    ¬(districtNum "1,234.50 m²" = some (mkRat 2469 2) ∨
      pyAreaVal "1,234.50 m²" = some (mkRat 2469 2)) := by decide

/-- C6 (amended): the district/area path normalization strips thousands
separators and surrounding whitespace and returns 0 on empty input; the
daily/month path normalization strips the `m²` unit suffix and spaces and
returns 0 on empty input.  Each path accepts `1234.5` only from input it
can fully clean (`"1,234.50"` district-side, `"1234.50 m²"` daily-side);
on `"1,234.50 m²"` both paths are left with residual non-numeric content,
which the district path answers by skipping the affected row (the other
rows still produce records — no crash of the strategy). -/
theorem normalizer_paths_behavior :
    districtNum "" = some 0 ∧ pyAreaVal "" = some 0 ∧
    districtNum "1,234.50" = some (mkRat 2469 2) ∧
    pyAreaVal "1234.50 m²" = some (mkRat 2469 2) ∧
    districtNum "1,234.50 m²" = none ∧ pyAreaVal "1,234.50 m²" = none ∧
    (parse_district_data "2025-12"
      [["所在区", "A", "B"], ["套数", "1", "1,234.50 m²"], ["面积", "2", "3"],
       ["所在区"], ["套数"], ["面积"]]).map (fun r => r.district) = ["A"] := by decide

/-- C5: on both Label-Value paths (daily and monthly-summary) a label
containing the residential qualifier `住宅` can never populate the
generic count or area field (the bare patterns carry a `'住宅' not in
label` guard, so the qualifier-bearing rules take priority), and the
label `住宅签约套数` populates exactly the residential count field. -/
theorem residential_label_priority (label : String)
    (hres : strContains label "住宅" = true) :
    ((∀ d v d', stepDaily d label v = some d' →
        d'.signCount = d.signCount ∧ d'.signArea = d.signArea) ∧
      (∀ m v m', stepMonth m label v = some m' →
        m'.signCount = m.signCount ∧ m'.signArea = m.signArea)) ∧
    ((∀ d v, stepDaily d "住宅签约套数" v =
        some { d with resSignCount := some ((pyDigitsNat? v).getD 0) }) ∧
      (∀ m v, stepMonth m "住宅签约套数" v =
        some { m with resSignCount := (pyDigitsNat? v).getD 0 })) := by
  constructor
  · constructor
    · intro d v d' h
      unfold stepDaily at h
      split_ifs at h with h1 h2 h3 h4
      · simp [hres] at h1
      · simp [hres] at h2
      · obtain rfl := Option.some.inj h
        exact ⟨rfl, rfl⟩
      · obtain ⟨q, hq, hd⟩ := Option.map_eq_some'.mp h
        subst hd
        exact ⟨rfl, rfl⟩
      · obtain rfl := Option.some.inj h
        exact ⟨rfl, rfl⟩
    · intro m v m' h
      unfold stepMonth at h
      split_ifs at h with h1 h2 h3 h4
      · simp [hres] at h1
      · simp [hres] at h2
      · obtain rfl := Option.some.inj h
        exact ⟨rfl, rfl⟩
      · obtain ⟨q, hq, hd⟩ := Option.map_eq_some'.mp h
        subst hd
        exact ⟨rfl, rfl⟩
      · obtain rfl := Option.some.inj h
        exact ⟨rfl, rfl⟩
  · have e1 : strContains "住宅签约套数" "网上签约套数" = false := by decide
    have e2 : strContains "住宅签约套数" "网上签约面积" = false := by decide
    have e3 : strContains "住宅签约套数" "住宅签约套数" = true := by decide
    constructor
    · intro d v
      simp [stepDaily, e1, e2, e3]
    · intro m v
      simp [stepMonth, e1, e2, e3]

/-- Witness for C5 at the concrete pair (住宅签约套数, 3). -/
theorem residential_label_priority_witness :
    stepDaily ⟨none, none, none, none⟩ "住宅签约套数" "3" = some ⟨none, none, some 3, none⟩ := by
  have h := (residential_label_priority "住宅签约套数" (by decide)).2.1
    ⟨none, none, none, none⟩ "3"
  exact h.trans (by decide)

lemma bestLoop_eq_pickFrom : ∀ (ts : List Table) (best : Option (Table × String)) (maxc : Nat),
    bestLoop ts best maxc =
      match pickFrom ts maxc with
      | some w => some w
      | none => best := by
  intro ts
  induction ts with
  | nil => intro best maxc; rfl
  | cons t ts ih =>
    intro best maxc
    simp only [bestLoop, pickFrom]
    by_cases hs : surv t = true
    · rw [if_pos hs]
      by_cases hlt : maxc < firstSignCount t
      · rw [if_pos hlt, if_pos ⟨hs, hlt⟩, ih]
        cases pickFrom ts (firstSignCount t) <;> rfl
      · rw [if_neg hlt, if_neg (fun hc => hlt hc.2), ih]
    · rw [if_neg hs, if_neg (fun hc => hs hc.1), ih]

lemma pickFrom_eq_none : ∀ (ts : List Table) (maxc : Nat),
    pickFrom ts maxc = none ↔ ∀ t ∈ ts, surv t = true → firstSignCount t ≤ maxc := by
  intro ts
  induction ts with
  | nil => intro maxc; simp [pickFrom]
  | cons t ts ih =>
    intro maxc
    simp only [pickFrom]
    by_cases hc : surv t = true ∧ maxc < firstSignCount t
    · rw [if_pos hc]
      refine iff_of_false ?_ ?_
      · cases hp : pickFrom ts (firstSignCount t) with
        | some w => simp
        | none => simp
      · intro h
        exact absurd (h t (List.mem_cons_self t ts) hc.1) (Nat.not_le.mpr hc.2)
    · rw [if_neg hc, ih]
      constructor
      · intro h u hu hsu
        rcases List.mem_cons.mp hu with rfl | hu'
        · exact Nat.not_lt.mp (fun hx => hc ⟨hsu, hx⟩)
        · exact h u hu' hsu
      · intro h u hu hsu
        exact h u (List.mem_cons_of_mem t hu) hsu

lemma pickFrom_eq_some : ∀ (ts : List Table) (maxc : Nat) (t : Table) (m : String),
    pickFrom ts maxc = some (t, m) →
    surv t = true ∧ maxc < firstSignCount t ∧ m = monthOf t ∧
    ∃ pre post, ts = pre ++ t :: post ∧
      (∀ u ∈ pre, surv u = true → firstSignCount u < firstSignCount t) ∧
      (∀ u ∈ post, surv u = true → firstSignCount u ≤ firstSignCount t) := by
  intro ts
  induction ts with
  | nil => intro maxc t m h; exact absurd h (by simp [pickFrom])
  | cons t0 ts ih =>
    intro maxc t m h
    simp only [pickFrom] at h
    by_cases hc : surv t0 = true ∧ maxc < firstSignCount t0
    · rw [if_pos hc] at h
      cases hp : pickFrom ts (firstSignCount t0) with
      | some w =>
        rw [hp] at h
        obtain rfl := Option.some.inj h
        obtain ⟨hsurv, hlt, hm, pre, post, hts, hpre, hpost⟩ :=
          ih (firstSignCount t0) t m hp
        refine ⟨hsurv, Nat.lt_trans hc.2 hlt, hm, t0 :: pre, post, by rw [hts]; rfl, ?_, hpost⟩
        intro u hu hsu
        rcases List.mem_cons.mp hu with rfl | hu'
        · exact hlt
        · exact hpre u hu' hsu
      | none =>
        rw [hp] at h
        have h' := Option.some.inj h
        obtain ⟨rfl, rfl⟩ := Prod.mk.inj h'
        refine ⟨hc.1, hc.2, rfl, [], ts, rfl, by simp, ?_⟩
        intro u hu hsu
        exact (pickFrom_eq_none ts (firstSignCount t0)).mp hp u hu hsu
    · rw [if_neg hc] at h
      obtain ⟨hsurv, hlt, hm, pre, post, hts, hpre, hpost⟩ := ih maxc t m h
      refine ⟨hsurv, hlt, hm, t0 :: pre, post, by rw [hts]; rfl, ?_, hpost⟩
      intro u hu hsu
      rcases List.mem_cons.mp hu with rfl | hu'
      · exact Nat.lt_of_le_of_lt (Nat.not_lt.mp (fun hx => hc ⟨hsu, hx⟩)) hlt
      · exact hpre u hu' hsu

/-- Counterexample to C2: a document whose single table survives both
filters (month pattern, no day pattern) but has extracted count 0 — the
selector keeps NOTHING (`max_sign_count` starts at 0 with a strict
comparison), although the claim requires keeping the surviving table with
the largest count. -/
theorem month_selector_drops_zero_count_survivor :
    surv [["2025年12月存量房网上签约"], ["网上签约套数", "0"]] = true ∧
    monthSelect [[["2025年12月存量房网上签约"], ["网上签约套数", "0"]]] = none ∧
    parse_month_summary [[["2025年12月存量房网上签约"], ["网上签约套数", "0"]]] = [] := by decide

/-- C2 (amended): tables matching both month and day patterns are
excluded regardless of count; among surviving tables the selector keeps
the one with the strictly largest extracted count, ties keeping the first
in document order, but ONLY when that count is positive — when no table
survives, or every surviving table's extracted count is 0, it selects
nothing and the strategy reports not found (empty record set). -/
theorem month_selector_max_positive (tables : List Table) :
    ((∀ t ∈ tables, surv t = true → firstSignCount t = 0) →
      monthSelect tables = none ∧ parse_month_summary tables = []) ∧
    (∀ t m, monthSelect tables = some (t, m) →
      surv t = true ∧ 0 < firstSignCount t ∧ m = monthOf t ∧
      ∃ pre post, tables = pre ++ t :: post ∧
        (∀ u ∈ pre, surv u = true → firstSignCount u < firstSignCount t) ∧
        (∀ u ∈ post, surv u = true → firstSignCount u ≤ firstSignCount t)) ∧
    ((∃ t, t ∈ tables ∧ surv t = true ∧ 0 < firstSignCount t) →
      (monthSelect tables).isSome = true) := by
  have hb := bestLoop_eq_pickFrom tables none 0
  refine ⟨?_, ?_, ?_⟩
  · intro h
    have hn : pickFrom tables 0 = none :=
      (pickFrom_eq_none tables 0).mpr (fun t ht hs => Nat.le_of_eq (h t ht hs))
    have hsel : monthSelect tables = none := by
      unfold monthSelect
      rw [hb, hn]
    refine ⟨hsel, ?_⟩
    unfold parse_month_summary
    rw [hsel]
  · intro t m hsel
    have hp : pickFrom tables 0 = some (t, m) := by
      unfold monthSelect at hsel
      rw [hb] at hsel
      cases hq : pickFrom tables 0 with
      | none => rw [hq] at hsel; exact absurd hsel (by simp)
      | some w =>
        rw [hq] at hsel
        obtain rfl := Option.some.inj hsel
        rfl
    exact pickFrom_eq_some tables 0 t m hp
  · rintro ⟨t, ht, hs, hpos⟩
    cases hq : pickFrom tables 0 with
    | some w =>
      unfold monthSelect
      rw [hb, hq]
      rfl
    | none =>
      have := (pickFrom_eq_none tables 0).mp hq t ht hs
      omega

/-- Witness for C2 (amended): among surviving tables with counts 50,
12000, 300 the selector keeps a table — and it is the one with count
12000 and month string 2025-12. -/
theorem month_selector_max_positive_witness :
    (monthSelect [
      [["2025年12月存量房网上签约"], ["网上签约套数", "50"]],
      [["2025年12月存量房网上签约"], ["网上签约套数", "12000"]],
      [["2025年12月存量房网上签约"], ["网上签约套数", "300"]]]).isSome = true ∧
    monthSelect [
      [["2025年12月存量房网上签约"], ["网上签约套数", "50"]],
      [["2025年12月存量房网上签约"], ["网上签约套数", "12000"]],
      [["2025年12月存量房网上签约"], ["网上签约套数", "300"]]] =
      some ([["2025年12月存量房网上签约"], ["网上签约套数", "12000"]], "2025-12") := by
  refine ⟨?_, by decide⟩
  apply (month_selector_max_positive _).2.2
  exact ⟨[["2025年12月存量房网上签约"], ["网上签约套数", "12000"]], by decide, by decide, by decide⟩

/-- Counterexample to C7: a daily table in which exactly one recognized
field (住宅签约套数) is matched — the strategy returns an EMPTY record
set (the column re-selection `df[[...]]` fails on the missing columns),
not exactly one record. -/
theorem label_value_partial_match_empty :
    extractDaily [["2026/1/5存量房网上签约"], ["住宅签约套数", "3"]] =
      some ⟨none, none, some 3, none⟩ ∧
    dailyMatched ⟨none, none, some 3, none⟩ = true ∧
    parse_daily_data [[["2026/1/5存量房网上签约"], ["住宅签约套数", "3"]]] = [] := by decide

/-- C7 (amended): on the daily path the Label-Value strategy produces
exactly one record iff ALL FOUR recognized fields were matched (a partial
match aborts on the column re-selection and yields an empty record set;
no match yields an empty record set); on the monthly path the selected
table yields exactly one record iff the extracted generic or residential
count is positive, otherwise an empty record set. -/
theorem label_value_record_multiplicity (tables : List Table) :
    (∀ date t rest d, dailyTables tables = (date, t) :: rest → extractDaily t = some d →
      ((parse_daily_data tables = [⟨date, d.signCount.getD 0, d.signArea.getD 0,
          d.resSignCount.getD 0, d.resSignArea.getD 0⟩] ↔ dailyAllMatched d = true) ∧
        (dailyMatched d = false → parse_daily_data tables = []))) ∧
    (∀ t m d, monthSelect tables = some (t, m) → extractMonth t = some d →
      (parse_month_summary tables = [⟨m, d.signCount, d.signArea, d.resSignCount,
          d.resSignArea⟩] ↔ (0 < d.signCount ∨ 0 < d.resSignCount))) := by
  constructor
  · intro date t rest d h1 h2
    obtain ⟨o1, o2, o3, o4⟩ := d
    simp only [parse_daily_data, h1, h2]
    cases o1 <;> cases o2 <;> cases o3 <;> cases o4 <;>
      simp [dailyMatched, dailyAllMatched]
  · intro t m d h1 h2
    simp only [parse_month_summary, h1, h2]
    by_cases hp : 0 < d.signCount ∨ 0 < d.resSignCount
    · rw [if_pos hp]
      simp [hp]
    · rw [if_neg hp]
      simp [hp]

/-- Witness for C7 (amended): a daily table with all four recognized
fields matched yields exactly one record. -/
theorem label_value_record_multiplicity_witness :
    parse_daily_data [dayTblA] = [⟨"2026-01-05", 10, mkRat 41 2, 6, mkRat 25 2⟩] := by
  have h := ((label_value_record_multiplicity [dayTblA]).1 "2026-01-05" dayTblA []
    ⟨some 10, some (mkRat 41 2), some 6, some (mkRat 25 2)⟩ (by decide) (by decide)).1.mpr
    (by decide)
  exact h.trans (by decide)

/-- C10: with two or more tables matching the daily date pattern, the
daily strategy takes the FIRST matching table in document order, and any
record it emits carries that first table's date (not the maximum date). -/
theorem daily_first_table_selected (tables : List Table) (date : String) (t : Table)
    (rest : List (String × Table)) (h : dailyTables tables = (date, t) :: rest) :
    ∀ r ∈ parse_daily_data tables, r.date = date := by
  intro r hr
  simp only [parse_daily_data, h] at hr
  cases he : extractDaily t with
  | none =>
    simp only [he] at hr
    simp at hr
  | some d =>
    simp only [he] at hr
    by_cases hm : dailyMatched d = true
    · rw [if_pos hm] at hr
      rcases d with ⟨o1, o2, o3, o4⟩
      cases o1 <;> cases o2 <;> cases o3 <;> cases o4 <;>
        first
        | (obtain rfl := List.mem_singleton.mp hr; rfl)
        | exact absurd hr (by simp)
    · rw [if_neg hm] at hr
      simp at hr

/-- Witness for C10: with matching tables dated 2026-01-05 and (later)
2026-01-09 in that document order, the emitted record carries the FIRST
table's date 2026-01-05, not the maximum. -/
theorem daily_first_table_selected_witness :
    ("2026-01-05".data < "2026-01-09".data) ∧
    dailyTables [dayTblA, dayTblB] = [("2026-01-05", dayTblA), ("2026-01-09", dayTblB)] ∧
    (⟨"2026-01-05", 10, mkRat 41 2, 6, mkRat 25 2⟩ : DailyRec) ∈
      parse_daily_data [dayTblA, dayTblB] ∧
    (⟨"2026-01-05", 10, mkRat 41 2, 6, mkRat 25 2⟩ : DailyRec).date = "2026-01-05" := by
  refine ⟨by decide, by decide, by decide, ?_⟩
  exact daily_first_table_selected [dayTblA, dayTblB] "2026-01-05" dayTblA
    [("2026-01-09", dayTblB)] (by decide) _ (by decide)
